import Mathlib

/-!
Shallow embedding of the yt-growth worker's quota governor, platform client
guards, retry transport, gating rules, scoring functions, duration parser and
stable cluster-id generation, with theorems checking the specification's
claims about them.  Python floats are modelled as rationals, Python ints as
integers, optional values as `Option`, raised exceptions as explicit error
results.
-/

namespace YtGrowth

/-- Python `x or d` on an optional number: `None` and `0` are falsy and fall
through to the default `d`. -/
def pyOrQ (x : Option ℚ) (d : ℚ) : ℚ :=
  match x with
  | none => d
  | some v => if v = 0 then d else v

/-- Python `x or d` on an optional integer (`subscriber_count or 0`). -/
def pyOrZ (x : Option ℤ) (d : ℤ) : ℤ :=
  match x with
  | none => d
  | some v => if v = 0 then d else v

/-! ## domain/scoring/opportunity.py -/

/-- `compute_opportunity_score(median_velocity, avg_subs, concentration)`:
returns `None` when `median_velocity` is `None`; otherwise
`demand / (competition * concentration_factor)` when that product is
positive, else `demand`. -/
def compute_opportunity_score (median_velocity avg_subs concentration : Option ℚ) :
    Option ℚ :=
  match median_velocity with
  | none => none
  | some demand =>
    let competition := pyOrQ avg_subs 100000 / 100000
    let concentration_factor := 1 + pyOrQ concentration (1/2)
    if competition * concentration_factor > 0 then
      some (demand / (competition * concentration_factor))
    else
      some demand

/-- Running prefix sums (`np.cumsum`) with accumulator `acc`. -/
def cumsumFrom (acc : ℤ) : List ℤ → List ℤ
  | [] => []
  | x :: xs => (acc + x) :: cumsumFrom (acc + x) xs

/-- `np.cumsum(arr)`. -/
def cumsum (l : List ℤ) : List ℤ := cumsumFrom 0 l

/-- `compute_winner_concentration(view_counts)`: simplified Gini coefficient
of the view counts, clamped into `[0,1]`; `0` for fewer than two elements or
a zero total. -/
def compute_winner_concentration (view_counts : List ℤ) : ℚ :=
  if view_counts.length < 2 then 0
  else
    let arr := List.insertionSort (· ≤ ·) view_counts
    let n : ℚ := arr.length
    let total : ℚ := (arr.sum : ℚ)
    if total = 0 then 0
    else
      let gini := (n + 1 - 2 * ((cumsum arr).sum : ℚ) / total) / n
      max 0 (min 1 gini)

/-! ## domain/scoring/velocity.py -/

/-- `compute_views_per_day(view_count, published_at, now)`: timestamps are in
seconds; the age in days is floored at `0.01`. -/
def compute_views_per_day (view_count : ℤ) (published_at now : ℚ) : ℚ :=
  let age_seconds := now - published_at
  let age_days := max (1/100) (age_seconds / 86400)
  (view_count : ℚ) / age_days

/-! ## domain/scoring/breakout.py -/

/-- `compute_breakout_by_subs(views_per_day, subscriber_count, min_subs)`:
`None` when `views_per_day` is missing or non-positive, else
`views_per_day / max(min_subs, subscriber_count or 0)`. -/
def compute_breakout_by_subs (views_per_day : Option ℚ)
    (subscriber_count : Option ℤ) (min_subs : ℤ) : Option ℚ :=
  match views_per_day with
  | none => none
  | some vpd =>
    if vpd ≤ 0 then none
    else
      let effective_subs := max min_subs (pyOrZ subscriber_count 0)
      some (vpd / (effective_subs : ℚ))

/-- `compute_breakout_by_baseline(views_per_day, channel_median_vpd)`:
`None` when either quantity is missing or non-positive, else their ratio. -/
def compute_breakout_by_baseline (views_per_day channel_median_vpd : Option ℚ) :
    Option ℚ :=
  match views_per_day with
  | none => none
  | some vpd =>
    if vpd ≤ 0 then none
    else
      match channel_median_vpd with
      | none => none
      | some base =>
        if base ≤ 0 then none
        else some (vpd / base)

/-! ## infra/youtube/quota.py -/

/-- Python `int(x)` on a float/rational: truncation toward zero. -/
def pyTruncInt (q : ℚ) : ℤ := if 0 ≤ q then ⌊q⌋ else ⌈q⌉

/-- The mutable `QuotaTracker` dataclass.  `last_reset` holds the current
day's midnight (platform time) as an abstract integer day stamp. -/
structure QuotaTracker where
  daily_limit : ℤ
  bufferRatio : ℚ
  used_today : ℤ
  last_reset : Option ℤ
deriving DecidableEq, Repr

/-- `QuotaTracker.effective_limit`: `int(daily_limit * (1 - buffer_ratio))`. -/
def QuotaTracker.effective_limit (t : QuotaTracker) : ℤ :=
  pyTruncInt ((t.daily_limit : ℚ) * (1 - t.bufferRatio))

/-- `QuotaTracker._maybe_reset()`, with the current midnight-PT day stamp
`todayPT` passed explicitly: zero the counter when a new day has started. -/
def QuotaTracker.maybeReset (t : QuotaTracker) (todayPT : ℤ) : QuotaTracker :=
  match t.last_reset with
  | none => { t with used_today := 0, last_reset := some todayPT }
  | some d =>
    if d < todayPT then { t with used_today := 0, last_reset := some todayPT }
    else t

/-- `QuotaTracker.remaining` (a property that first runs `_maybe_reset`):
returns the updated tracker together with `max(0, effective_limit - used_today)`. -/
def QuotaTracker.remaining (t : QuotaTracker) (todayPT : ℤ) : QuotaTracker × ℤ :=
  let t1 := t.maybeReset todayPT
  (t1, max 0 (t1.effective_limit - t1.used_today))

/-- `QuotaTracker.can_afford(cost)`: `remaining >= cost` (with the state
update `remaining` performs). -/
def QuotaTracker.can_afford (t : QuotaTracker) (todayPT : ℤ) (cost : ℤ) :
    QuotaTracker × Bool :=
  let p := t.remaining todayPT
  (p.1, decide (p.2 ≥ cost))

/-- `QuotaTracker.consume(cost)`: `_maybe_reset` then `used_today += cost`. -/
def QuotaTracker.consume (t : QuotaTracker) (todayPT : ℤ) (cost : ℤ) :
    QuotaTracker :=
  let t1 := t.maybeReset todayPT
  { t1 with used_today := t1.used_today + cost }

/-! ## infra/youtube/client.py: the quota-relevant control flow -/

/-- `QUOTA_COSTS` from infra/youtube/http.py. -/
def QUOTA_COSTS (op : String) : ℤ :=
  if op = "search.list" then 100
  else if op = "videos.list" then 1
  else if op = "channels.list" then 1
  else 0

/-- Exceptions a client call can raise. -/
inductive ClientError where
  | quotaExceeded
  | valueError
  | httpError
deriving DecidableEq, Repr

/-- Observable outcome of one client method call: the exception raised (if
any), the tracker afterwards, and whether an HTTP request was started. -/
structure CallOutcome where
  raised : Option ClientError
  tracker : QuotaTracker
  httpRequested : Bool
deriving DecidableEq, Repr

/-- Shared tail of every client method: gate on `can_afford(cost)`, raise
`QuotaExceededError` when it fails, otherwise run `make_request` (whose
success is the abstract flag `httpOk`) and `consume(cost)` on success. -/
def gatedCall (cost : ℤ) (t : QuotaTracker) (todayPT : ℤ) (httpOk : Bool) :
    CallOutcome :=
  let p := t.can_afford todayPT cost
  if !p.2 then ⟨some .quotaExceeded, p.1, false⟩
  else if httpOk then ⟨none, p.1.consume todayPT cost, true⟩
  else ⟨some .httpError, p.1, true⟩

/-- `YouTubeClient.search_videos`: no input guards, cost `search.list`. -/
def search_videos_call (t : QuotaTracker) (todayPT : ℤ) (httpOk : Bool) :
    CallOutcome :=
  gatedCall (QUOTA_COSTS "search.list") t todayPT httpOk

/-- `YouTubeClient.get_video_stats` with `n` video ids: empty input returns
at once, more than 50 ids raises `ValueError`, otherwise the gated call with
cost `videos.list`. -/
def get_video_stats_call (n : ℕ) (t : QuotaTracker) (todayPT : ℤ)
    (httpOk : Bool) : CallOutcome :=
  if n = 0 then ⟨none, t, false⟩
  else if n > 50 then ⟨some .valueError, t, false⟩
  else gatedCall (QUOTA_COSTS "videos.list") t todayPT httpOk

/-- `YouTubeClient.get_channel_info` with `n` channel ids: same guards as
`get_video_stats`, cost `channels.list`. -/
def get_channel_info_call (n : ℕ) (t : QuotaTracker) (todayPT : ℤ)
    (httpOk : Bool) : CallOutcome :=
  if n = 0 then ⟨none, t, false⟩
  else if n > 50 then ⟨some .valueError, t, false⟩
  else gatedCall (QUOTA_COSTS "channels.list") t todayPT httpOk

/-! ## infra/youtube/http.py: make_request error classification and retry -/

/-- What one HTTP attempt observes: a timeout, a connection error, or a
response with a status code and (for error bodies) a structured reason. -/
inductive HttpEvent where
  | timeout
  | connError
  | response (status : ℕ) (reason : String)
deriving DecidableEq, Repr

/-- Outcome of one attempt inside `make_request`'s body. -/
inductive ReqOutcome where
  | success
  | retryable (why : String)
  | quotaExceeded
  | apiError (status : ℕ)
deriving DecidableEq, Repr

/-- The body of `make_request` for one attempt: classify the observed event
exactly as the Python code does, in the same order. -/
def classify_response (e : HttpEvent) : ReqOutcome :=
  match e with
  | .timeout => .retryable "timeout"
  | .connError => .retryable "connection error"
  | .response s r =>
    if s = 200 then .success
    else if s = 403 then
      if r = "quotaExceeded" ∨ r = "dailyLimitExceeded" then .quotaExceeded
      else .retryable "rate limited"
    else if s = 500 ∨ s = 502 ∨ s = 503 ∨ s = 504 then .retryable "server error"
    else if s = 429 then .retryable "too many requests"
    else .apiError s

/-- Does tenacity's `retry_if_exception_type(RetryableError)` fire? -/
def isRetryable : ReqOutcome → Bool
  | .retryable _ => true
  | _ => false

/-- The tenacity loop around `make_request`, `stop_after_attempt(5)` and
`reraise=True`: attempt `i` observes `events i`; a retryable outcome is
retried while attempts remain, anything else (and the final attempt's
outcome) surfaces.  Returns (number of attempts used, surfaced outcome). -/
def retryFrom (events : ℕ → HttpEvent) (i : ℕ) : ℕ → ℕ × ReqOutcome
  | 0 => (i + 1, classify_response (events i))
  | rem + 1 =>
    let o := classify_response (events i)
    if isRetryable o then retryFrom events (i + 1) rem
    else (i + 1, o)

/-- `make_request` under a sequence of per-attempt observations: up to 5
attempts in total. -/
def make_request (events : ℕ → HttpEvent) : ℕ × ReqOutcome :=
  retryFrom events 0 4

/-! ## client.py: _parse_duration -/

/-- ASCII whitespace stripped by Python `int()` / `str.strip()`. -/
def pyIsSpace (c : Char) : Bool :=
  c = ' ' || c = '\t' || c = '\n' || c = '\r' || c = '\x0b' || c = '\x0c'

/-- `str.strip()` on a character list (ASCII whitespace). -/
def pyStrip (l : List Char) : List Char :=
  ((l.dropWhile pyIsSpace).reverse.dropWhile pyIsSpace).reverse

/-- Value of Python's integer-digit grammar `digit+ ('_' digit+)*` given the
digits consumed so far: single underscores are allowed between digits only. -/
def pyDigitsVal (acc : ℕ) : List Char → Option ℕ
  | [] => some acc
  | c :: rest =>
    if c.isDigit then pyDigitsVal (acc * 10 + (c.toNat - 48)) rest
    else if c = '_' then
      match rest with
      | [] => none
      | d :: rest2 =>
        if d.isDigit then pyDigitsVal (acc * 10 + (d.toNat - 48)) rest2
        else none
    else none

/-- Python `int(s)` on an ASCII string slice: surrounding whitespace is
stripped, an optional sign precedes `digit+ ('_' digit+)*`; anything else
raises `ValueError` (`none` here). -/
def pyIntOfChars (l : List Char) : Option ℤ :=
  let digits : List Char → Option ℕ := fun ds =>
    match ds with
    | [] => none
    | d :: _ => if d.isDigit then pyDigitsVal 0 ds else none
  match pyStrip l with
  | '-' :: rest => (digits rest).map (fun n => -(n : ℤ))
  | '+' :: rest => (digits rest).map (fun n => (n : ℤ))
  | other => (digits other).map (fun n => (n : ℤ))

/-- Split a character list at the first occurrence of `c`:
`some (before, after)` when present, `none` when absent. -/
def splitFirst (c : Char) : List Char → Option (List Char × List Char)
  | [] => none
  | x :: xs =>
    if x = c then some ([], xs)
    else (splitFirst c xs).map (fun p => (x :: p.1, p.2))

/-- One component step of `_parse_duration`: if unit `c` occurs, parse the
digits before it and keep the tail, else the value is 0 and the string is
unchanged.  `none` models the `ValueError` from `int()`. -/
def durationComponent (c : Char) (l : List Char) :
    Option (ℤ × List Char) :=
  match splitFirst c l with
  | none => some (0, l)
  | some (pre, post) =>
    match pyIntOfChars pre with
    | none => none
    | some v => some (v, post)

/-- `YouTubeClient._parse_duration`: `None` for an empty string or one not
starting with `"PT"`; otherwise extract optional H, M, S components in that
order and combine.  `Except.error ()` models an uncaught `ValueError`.
The string is handled through its character list. -/
def parse_duration (s : String) : Except Unit (Option ℤ) :=
  if s.data.isEmpty ∨ ¬ (['P', 'T'].isPrefixOf s.data) then .ok none
  else
    let rest := s.data.drop 2
    match durationComponent 'H' rest with
    | none => .error ()
    | some (hours, rest1) =>
      match durationComponent 'M' rest1 with
      | none => .error ()
      | some (minutes, rest2) =>
        match splitFirst 'S' rest2 with
        | none => .ok (some (hours * 3600 + minutes * 60 + 0))
        | some (pre, _) =>
          match pyIntOfChars pre with
          | none => .error ()
          | some seconds => .ok (some (hours * 3600 + minutes * 60 + seconds))

/-! ## domain/gating/rules.py and app/services/gating_service.py -/

/-- `DEFAULT_WINDOW_CONFIGS`: window name, days, min_views. -/
def DEFAULT_WINDOW_CONFIGS : List (String × ℤ × ℤ) :=
  [("24h", 1, 100), ("7d", 7, 500), ("30d", 30, 2000), ("90d", 90, 5000)]

/-- `check_age_eligibility(published_at, now)` with timestamps in seconds:
the windows whose span (in days) covers the video's age. -/
def check_age_eligibility (published_at now : ℚ) : List String :=
  let age := now - published_at
  (DEFAULT_WINDOW_CONFIGS.filter (fun w => age ≤ (w.2.1 : ℚ) * 86400)).map (·.1)

/-- `check_duplicate(video_id, seen_video_ids)`: `true` when the id is new. -/
def check_duplicate (video_id : String) (seen_video_ids : List String) : Bool :=
  !(seen_video_ids.contains video_id)

/-- `check_channel_cap(channel_id, channel_counts, max_per_channel)`:
`true` while the channel's running count is strictly below the cap.
The counts dict is modelled as a total function with default 0. -/
def check_channel_cap (channel_id : String) (channel_counts : String → ℕ)
    (max_per_channel : ℕ) : Bool :=
  decide (channel_counts channel_id < max_per_channel)

/-- A search-result candidate as the gate sees it. -/
structure Candidate where
  video_id : String
  channel_id : String
  published_at : ℚ
deriving DecidableEq, Repr

/-- The mutable per-batch state of `GatingService`. -/
structure GateState where
  seen_video_ids : List String
  channel_counts : String → ℕ

/-- The outcome `GatingService.gate` records for one candidate. -/
structure GatingResult where
  accepted : Bool
  video : Candidate
  rejection_reason : Option String
deriving DecidableEq, Repr

/-- `GatingService.gate(video)`: duplicate check, age check, per-channel cap
check in that order; on acceptance the seen-set and the channel's running
count are updated. -/
def gate (max_per_channel : ℕ) (now : ℚ) (st : GateState) (c : Candidate) :
    GatingResult × GateState :=
  if !(check_duplicate c.video_id st.seen_video_ids) then
    (⟨false, c, some "duplicate"⟩, st)
  else if (check_age_eligibility c.published_at now).isEmpty then
    (⟨false, c, some "too_old"⟩, st)
  else if !(check_channel_cap c.channel_id st.channel_counts max_per_channel) then
    (⟨false, c, some "channel_cap"⟩, st)
  else
    (⟨true, c, none⟩,
     { seen_video_ids := c.video_id :: st.seen_video_ids,
       channel_counts := fun ch =>
         if ch = c.channel_id then st.channel_counts ch + 1
         else st.channel_counts ch })

/-- `GatingService.gate_batch(candidates)`: gate each candidate in order,
threading the batch state. -/
def gate_batch (max_per_channel : ℕ) (now : ℚ) (st : GateState) :
    List Candidate → List GatingResult × GateState
  | [] => ([], st)
  | c :: cs =>
    let p := gate max_per_channel now st c
    let q := gate_batch max_per_channel now p.2 cs
    (p.1 :: q.1, q.2)

/-- Number of results in a batch that were accepted for channel `ch`. -/
def countAccepted (ch : String) (results : List GatingResult) : ℕ :=
  (results.filter (fun r => r.accepted && r.video.channel_id == ch)).length

/-! ## domain/clustering/stable_id.py: SHA-256, UUID formatting -/

/-- Reduce modulo `2^32`. -/
def w32 (n : ℕ) : ℕ := n % 4294967296

/-- Rotate a 32-bit word right by `n`. -/
def rotr32 (x n : ℕ) : ℕ := w32 ((x >>> n) ||| (x <<< (32 - n)))

/-- Bitwise complement within 32 bits. -/
def not32 (x : ℕ) : ℕ := x ^^^ 4294967295

/-- SHA-256 choice function. -/
def shaCh (x y z : ℕ) : ℕ := (x &&& y) ^^^ (not32 x &&& z)

/-- SHA-256 majority function. -/
def shaMaj (x y z : ℕ) : ℕ := (x &&& y) ^^^ (x &&& z) ^^^ (y &&& z)

/-- SHA-256 Σ₀. -/
def bsig0 (x : ℕ) : ℕ := rotr32 x 2 ^^^ rotr32 x 13 ^^^ rotr32 x 22

/-- SHA-256 Σ₁. -/
def bsig1 (x : ℕ) : ℕ := rotr32 x 6 ^^^ rotr32 x 11 ^^^ rotr32 x 25

/-- SHA-256 σ₀. -/
def ssig0 (x : ℕ) : ℕ := rotr32 x 7 ^^^ rotr32 x 18 ^^^ (x >>> 3)

/-- SHA-256 σ₁. -/
def ssig1 (x : ℕ) : ℕ := rotr32 x 17 ^^^ rotr32 x 19 ^^^ (x >>> 10)

/-- The 64 SHA-256 round constants (FIPS 180-4), written in decimal. -/
def shaK : List ℕ :=
  [1116352408, 1899447441, 3049323471, 3921009573,
   961987163, 1508970993, 2453635748, 2870763221,
   3624381080, 310598401, 607225278, 1426881987,
   1925078388, 2162078206, 2614888103, 3248222580,
   3835390401, 4022224774, 264347078, 604807628,
   770255983, 1249150122, 1555081692, 1996064986,
   2554220882, 2821834349, 2952996808, 3210313671,
   3336571891, 3584528711, 113926993, 338241895,
   666307205, 773529912, 1294757372, 1396182291,
   1695183700, 1986661051, 2177026350, 2456956037,
   2730485921, 2820302411, 3259730800, 3345764771,
   3516065817, 3600352804, 4094571909, 275423344,
   430227734, 506948616, 659060556, 883997877,
   958139571, 1322822218, 1537002063, 1747873779,
   1955562222, 2024104815, 2227730452, 2361852424,
   2428436474, 2756734187, 3204031479, 3329325298]

/-- The SHA-256 initial hash value (FIPS 180-4), written in decimal. -/
def shaH0 : List ℕ :=
  [1779033703, 3144134277, 1013904242, 2773480762,
   1359893119, 2600822924, 528734635, 1541459225]

/-- `k` big-endian bytes of `n`. -/
def beBytes (k : ℕ) (n : ℕ) : List ℕ :=
  (List.range k).map (fun i => (n >>> (8 * (k - 1 - i))) % 256)

/-- SHA-256 padding of a byte string: `0x80`, zeros to 56 mod 64, then the
bit length as 8 big-endian bytes. -/
def sha256Pad (msg : List ℕ) : List ℕ :=
  let len := msg.length
  let zeros := (120 - (len + 1) % 64) % 64
  msg ++ [0x80] ++ List.replicate zeros 0 ++ beBytes 8 (len * 8)

/-- Pack bytes into big-endian 32-bit words. -/
def toWords : List ℕ → List ℕ
  | b0 :: b1 :: b2 :: b3 :: rest =>
    (((b0 * 256 + b1) * 256 + b2) * 256 + b3) :: toWords rest
  | _ => []

/-- Indexing into the message schedule. -/
def wAt (w : List ℕ) (i : ℕ) : ℕ := w.getD i 0

/-- Extend the 16-word schedule by `n` further words. -/
def extendW (w : List ℕ) : ℕ → List ℕ
  | 0 => w
  | n + 1 =>
    let L := w.length
    extendW
      (w ++ [w32 (ssig1 (wAt w (L - 2)) + wAt w (L - 7) +
                  ssig0 (wAt w (L - 15)) + wAt w (L - 16))]) n

/-- The full 64-word message schedule of one block. -/
def schedule (w16 : List ℕ) : List ℕ := extendW w16 48

/-- One SHA-256 compression round on working state `[a,b,c,d,e,f,g,h]`. -/
def compressRound (st : List ℕ) (kw : ℕ × ℕ) : List ℕ :=
  match st with
  | [a, b, c, d, e, f, g, h] =>
    let t1 := w32 (h + bsig1 e + shaCh e f g + kw.1 + kw.2)
    let t2 := w32 (bsig0 a + shaMaj a b c)
    [w32 (t1 + t2), a, b, c, w32 (d + t1), e, f, g]
  | other => other

/-- Compress one 16-word block into the running hash. -/
def compressBlock (h : List ℕ) (w16 : List ℕ) : List ℕ :=
  let st := (shaK.zip (schedule w16)).foldl compressRound h
  (h.zip st).map (fun p => w32 (p.1 + p.2))

/-- Fold the compression over `nb` 64-byte blocks. -/
def processBlocks (h : List ℕ) (bytes : List ℕ) : ℕ → List ℕ
  | 0 => h
  | n + 1 => processBlocks (compressBlock h (toWords (bytes.take 64))) (bytes.drop 64) n

/-- `hashlib.sha256(msg).digest()` as a list of 32 bytes. -/
def sha256 (msg : List ℕ) : List ℕ :=
  let padded := sha256Pad msg
  (processBlocks shaH0 padded (padded.length / 64)).flatMap (beBytes 4)

/-- UTF-8 encoding of one code point. -/
def encodeUtf8 (n : ℕ) : List ℕ :=
  if n < 0x80 then [n]
  else if n < 0x800 then [0xc0 + n / 64, 0x80 + n % 64]
  else if n < 0x10000 then
    [0xe0 + n / 4096, 0x80 + (n / 64) % 64, 0x80 + n % 64]
  else
    [0xf0 + n / 262144, 0x80 + (n / 4096) % 64, 0x80 + (n / 64) % 64,
     0x80 + n % 64]

/-- `str.encode()`: UTF-8 bytes of a string. -/
def utf8Bytes (s : String) : List ℕ := s.data.flatMap (fun c => encodeUtf8 c.toNat)

/-- Lower-case hex digit. -/
def hexDigit (n : ℕ) : Char :=
  if n < 10 then Char.ofNat (48 + n) else Char.ofNat (87 + n)

/-- Two hex digits of a byte. -/
def byteHex (b : ℕ) : List Char := [hexDigit (b / 16), hexDigit (b % 16)]

/-- `str(uuid.UUID(bytes=bs))` for 16 raw bytes: hex in 8-4-4-4-12 groups. -/
def uuid_from_bytes (bs : List ℕ) : String :=
  let hx := bs.flatMap byteHex
  String.mk (hx.take 8) ++ "-" ++ String.mk ((hx.drop 8).take 4) ++ "-" ++
    String.mk ((hx.drop 12).take 4) ++ "-" ++ String.mk ((hx.drop 16).take 4) ++
    "-" ++ String.mk (hx.drop 20)

/-- Lexicographic code-point comparison of character lists: the order behind
Python's `<=` on strings. -/
def lexLe : List Char → List Char → Bool
  | [], _ => true
  | _ :: _, [] => false
  | a :: as, b :: bs =>
    if a.toNat < b.toNat then true
    else if b.toNat < a.toNat then false
    else lexLe as bs

/-- Python's `<=` on strings as a Bool. -/
def strLe (a b : String) : Bool := lexLe a.data b.data

/-- Python's `<=` on strings as a relation, the sort order of `sorted`. -/
def pyLe (a b : String) : Prop := strLe a b = true

instance : DecidableRel pyLe := fun a b => Bool.decEq (strLe a b) true

/-- `stable_cluster_id(window, video_ids)`: UUID from the first 16 bytes of
`SHA-256(window + ":" + ",".join(sorted(video_ids)))`. -/
def stable_cluster_id (window : String) (video_ids : List String) : String :=
  let sorted_ids := List.insertionSort pyLe video_ids
  let content := window ++ ":" ++ String.intercalate "," sorted_ids
  let hash_bytes := (sha256 (utf8Bytes content)).take 16
  uuid_from_bytes hash_bytes

/-! ## Theorems -/

/-- C6 counterexample: the claim says the score falls back to
`median_velocity` only when the denominator factor is 0; the code falls back
whenever the factor is not positive.  With `avg_subs = -100000` the factor is
`-3/2 ≠ 0`, the claimed formula gives a negative value, yet the code returns
`median_velocity` itself. -/
theorem C6_cex :
    compute_opportunity_score (some 10000) (some (-100000)) (some (1/2)) =
      some 10000 ∧
    ((-100000 : ℚ) / 100000) * (1 + 1/2) ≠ 0 ∧
    (10000 : ℚ) ≠ 10000 / (((-100000 : ℚ) / 100000) * (1 + 1/2)) := by
  refine ⟨by norm_num [compute_opportunity_score, pyOrQ], by norm_num,
    by norm_num⟩

/-- C6 (amended): `compute_opportunity_score` is `None` exactly when
`median_velocity` is `None`; otherwise it is
`median_velocity / ((avg_subs_or_100k/100k) * (1 + concentration_or_0.5))`
when that factor is positive and `median_velocity` itself when the factor is
not positive; the stated example lands in `(6600, 6700)` and smaller
channels give a strictly greater score. -/
theorem C6_opportunity_score :
    (∀ mv a c, compute_opportunity_score mv a c = none ↔ mv = none) ∧
    (∀ mv a c,
      compute_opportunity_score (some mv) a c =
        some (if (pyOrQ a 100000 / 100000) * (1 + pyOrQ c (1/2)) > 0 then
                mv / ((pyOrQ a 100000 / 100000) * (1 + pyOrQ c (1/2)))
              else mv)) ∧
    compute_opportunity_score (some 10000) (some 100000) (some (1/2)) =
      some (20000/3) ∧
    (6600 : ℚ) < 20000/3 ∧ (20000/3 : ℚ) < 6700 ∧
    compute_opportunity_score (some 10000) (some 10000) (some (1/2)) =
      some (200000/3) ∧
    compute_opportunity_score (some 10000) (some 1000000) (some (1/2)) =
      some (2000/3) ∧
    (2000/3 : ℚ) < 200000/3 := by
  refine ⟨?_, ?_, by norm_num [compute_opportunity_score, pyOrQ], by norm_num,
    by norm_num, by norm_num [compute_opportunity_score, pyOrQ],
    by norm_num [compute_opportunity_score, pyOrQ], by norm_num⟩
  · intro mv a c
    cases mv with
    | none => simp [compute_opportunity_score]
    | some d =>
      simp only [compute_opportunity_score]
      split <;> simp
  · intro mv a c
    simp only [compute_opportunity_score]
    rw [apply_ite some]

/-- C7: `compute_views_per_day` is `view_count / max(age_days, 0.01)`, it is
non-negative for non-negative counts and ages, and a 5-minute-old video
(300 seconds) gets the `0.01`-day floor: the result is `100 * view_count`. -/
theorem C7_views_per_day :
    (∀ (vc : ℤ) (pub now : ℚ),
      compute_views_per_day vc pub now =
        (vc : ℚ) / max ((now - pub) / 86400) (1/100)) ∧
    (∀ (vc : ℤ) (pub now : ℚ), 0 ≤ vc → pub ≤ now →
      0 ≤ compute_views_per_day vc pub now) ∧
    (∀ (vc : ℤ) (pub : ℚ),
      compute_views_per_day vc pub (pub + 300) = 100 * (vc : ℚ)) := by
  refine ⟨?_, ?_, ?_⟩
  · intro vc pub now
    simp only [compute_views_per_day]
    rw [max_comm]
  · intro vc pub now hvc _
    simp only [compute_views_per_day]
    apply div_nonneg
    · exact_mod_cast hvc
    · have h : (0:ℚ) < 1/100 := by norm_num
      exact le_trans (le_of_lt h) (le_max_left _ _)
  · intro vc pub
    simp only [compute_views_per_day]
    have h1 : pub + 300 - pub = (300 : ℚ) := by ring
    rw [h1]
    have h2 : max ((1:ℚ)/100) (300 / 86400) = 1/100 := by
      apply max_eq_left; norm_num
    rw [h2]
    rw [div_eq_mul_inv]
    ring

/-- C7 witness: the non-negativity clause applied at a concrete input. -/
theorem C7_witness :
    (0 : ℤ) ≤ 7 ∧ (0 : ℚ) ≤ 300 ∧ 0 ≤ compute_views_per_day 7 0 300 :=
  ⟨by norm_num, by norm_num,
   C7_views_per_day.2.1 7 0 300 (by norm_num) (by norm_num)⟩

/-- C8: `compute_winner_concentration` is always in `[0,1]`, is 0 for lists
with fewer than two elements and for lists summing to zero, is below `0.1`
on four equal values, and above `0.5` on one dominant value. -/
theorem C8_winner_concentration :
    (∀ l, 0 ≤ compute_winner_concentration l ∧
      compute_winner_concentration l ≤ 1) ∧
    (∀ l, l.length < 2 → compute_winner_concentration l = 0) ∧
    (∀ l, l.sum = 0 → compute_winner_concentration l = 0) ∧
    compute_winner_concentration [1000, 1000, 1000, 1000] < 1/10 ∧
    1/2 < compute_winner_concentration [10000, 100, 100, 100] := by
  refine ⟨?_, ?_, ?_, ?_, ?_⟩
  · intro l
    simp only [compute_winner_concentration]
    split
    · norm_num
    · split
      · norm_num
      · exact ⟨le_max_left _ _, max_le (by norm_num) (min_le_left _ _)⟩
  · intro l h
    simp [compute_winner_concentration, h]
  · intro l h
    simp only [compute_winner_concentration]
    split
    · rfl
    · have hs : (((List.insertionSort (· ≤ ·) l).sum : ℤ) : ℚ) = 0 := by
        rw [(List.perm_insertionSort _ l).sum_eq, h]
        norm_num
      rw [if_pos hs]
  · norm_num [compute_winner_concentration, List.insertionSort,
      List.orderedInsert, cumsum, cumsumFrom]
  · norm_num [compute_winner_concentration, List.insertionSort,
      List.orderedInsert, cumsum, cumsumFrom]

/-- C8 witness: the fewer-than-two-elements clause applied at a singleton
and the zero-sum clause applied at an all-zero list. -/
theorem C8_witness :
    compute_winner_concentration [42] = 0 ∧
    compute_winner_concentration [0, 0, 0] = 0 :=
  ⟨C8_winner_concentration.2.1 [42] (by norm_num),
   C8_winner_concentration.2.2.1 [0, 0, 0] (by norm_num)⟩

/-- C10: both breakout scores are `None` exactly when `views_per_day` is
missing or non-positive (for the baseline variant, also when the channel
baseline is missing or non-positive); a zero-view video therefore gets
`None`, not 0, whatever the subscriber count or baseline. -/
theorem C10_breakout_null :
    (∀ subs ms, compute_breakout_by_subs none subs ms = none) ∧
    (∀ v subs ms, v ≤ 0 → compute_breakout_by_subs (some v) subs ms = none) ∧
    (∀ v subs ms, 0 < v →
      (compute_breakout_by_subs (some v) subs ms).isSome = true) ∧
    (∀ base, compute_breakout_by_baseline none base = none) ∧
    (∀ v base, v ≤ 0 → compute_breakout_by_baseline (some v) base = none) ∧
    (∀ v, compute_breakout_by_baseline (some v) none = none) ∧
    (∀ v b, b ≤ 0 → compute_breakout_by_baseline (some v) (some b) = none) ∧
    (∀ v b, 0 < v → 0 < b →
      (compute_breakout_by_baseline (some v) (some b)).isSome = true) ∧
    (∀ pub now subs ms,
      compute_breakout_by_subs (some (compute_views_per_day 0 pub now)) subs ms
        = none) := by
  refine ⟨?_, ?_, ?_, ?_, ?_, ?_, ?_, ?_, ?_⟩
  · intro subs ms; rfl
  · intro v subs ms h; simp [compute_breakout_by_subs, h]
  · intro v subs ms h
    simp [compute_breakout_by_subs, not_le.mpr h]
  · intro base; rfl
  · intro v base h
    cases base <;> simp [compute_breakout_by_baseline, h]
  · intro v; simp [compute_breakout_by_baseline]
  · intro v b h
    by_cases hv : v ≤ 0 <;> simp [compute_breakout_by_baseline, hv, h]
  · intro v b hv hb
    simp [compute_breakout_by_baseline, not_le.mpr hv, not_le.mpr hb]
  · intro pub now subs ms
    have h0 : compute_views_per_day 0 pub now = 0 := by
      simp [compute_views_per_day]
    rw [h0]
    simp [compute_breakout_by_subs]

/-- C10 witness: the non-positive and positive clauses at concrete inputs. -/
theorem C10_witness :
    compute_breakout_by_subs (some 0) (some 100000) 100 = none ∧
    (compute_breakout_by_baseline (some 5) (some 2)).isSome = true :=
  ⟨C10_breakout_null.2.1 0 (some 100000) 100 (by norm_num),
   C10_breakout_null.2.2.2.2.2.2.2.1 5 2 (by norm_num) (by norm_num)⟩

/-- `_maybe_reset` is idempotent for a fixed day stamp. -/
theorem maybeReset_maybeReset (t : QuotaTracker) (d : ℤ) :
    (t.maybeReset d).maybeReset d = t.maybeReset d := by
  cases hr : t.last_reset with
  | none => simp [QuotaTracker.maybeReset, hr]
  | some d0 =>
    by_cases h : d0 < d <;> simp [QuotaTracker.maybeReset, hr, h]

/-- `_maybe_reset` does not change the configured limits. -/
theorem effective_limit_maybeReset (t : QuotaTracker) (d : ℤ) :
    (t.maybeReset d).effective_limit = t.effective_limit := by
  cases hr : t.last_reset with
  | none => simp [QuotaTracker.maybeReset, QuotaTracker.effective_limit, hr]
  | some d0 =>
    by_cases h : d0 < d <;>
      simp [QuotaTracker.maybeReset, QuotaTracker.effective_limit, hr, h]

/-- C3: every concrete operation cost is at least 1, and for every quota
state, after a `consume(cost)` that was gated by a passing
`can_afford(cost)` with a positive cost, `used_today ≤ effective_limit`. -/
theorem C3_consume_within_limit :
    (1 ≤ QUOTA_COSTS "search.list" ∧ 1 ≤ QUOTA_COSTS "videos.list" ∧
      1 ≤ QUOTA_COSTS "channels.list") ∧
    ∀ (t : QuotaTracker) (todayPT cost : ℤ), 1 ≤ cost →
      (t.can_afford todayPT cost).2 = true →
      (((t.can_afford todayPT cost).1.consume todayPT cost).used_today ≤
       ((t.can_afford todayPT cost).1.consume todayPT cost).effective_limit) := by
  refine ⟨⟨by decide, by decide, by decide⟩, ?_⟩
  intro t todayPT cost hc hok
  have hfst : (t.can_afford todayPT cost).1 = t.maybeReset todayPT := rfl
  have hsnd : (t.can_afford todayPT cost).2 =
      decide (max 0 ((t.maybeReset todayPT).effective_limit -
        (t.maybeReset todayPT).used_today) ≥ cost) := rfl
  rw [hsnd] at hok
  have hge : max 0 ((t.maybeReset todayPT).effective_limit -
      (t.maybeReset todayPT).used_today) ≥ cost := of_decide_eq_true hok
  have hle : (t.maybeReset todayPT).used_today + cost ≤
      (t.maybeReset todayPT).effective_limit := by
    rcases le_total ((t.maybeReset todayPT).effective_limit -
        (t.maybeReset todayPT).used_today) 0 with h | h
    · rw [max_eq_left h] at hge; omega
    · rw [max_eq_right h] at hge; omega
  rw [hfst]
  simp only [QuotaTracker.consume, maybeReset_maybeReset]
  have heq : ∀ (s : QuotaTracker) (x : ℤ),
      ({ s with used_today := x } : QuotaTracker).effective_limit =
        s.effective_limit := fun s x => rfl
  rw [heq]
  exact hle

/-- C3 witness: the bound applied to a fresh tracker with a 10% buffer
consuming a search's cost of 100. -/
theorem C3_witness :
    (((⟨10000, 1/10, 0, some 0⟩ : QuotaTracker).can_afford 0 100).1.consume
        0 100).used_today ≤
    (((⟨10000, 1/10, 0, some 0⟩ : QuotaTracker).can_afford 0 100).1.consume
        0 100).effective_limit :=
  C3_consume_within_limit.2 ⟨10000, 1/10, 0, some 0⟩ 0 100 (by norm_num)
    (by norm_num [QuotaTracker.can_afford, QuotaTracker.remaining,
      QuotaTracker.maybeReset, QuotaTracker.effective_limit, pyTruncInt])

/-- C2 counterexample: `get_video_stats` with an empty id list returns at
once even when `remaining < cost`: no `QuotaExceededError` is raised, so the
claim's "the call raises QuotaExceededError" fails for this operation. -/
theorem C2_cex :
    ((⟨10000, 1/10, 9000, some 0⟩ : QuotaTracker).remaining 0).2 <
      QUOTA_COSTS "videos.list" ∧
    (get_video_stats_call 0 ⟨10000, 1/10, 9000, some 0⟩ 0 true).raised =
      none ∧
    (get_video_stats_call 0 ⟨10000, 1/10, 9000, some 0⟩ 0 true).httpRequested
      = false := by
  refine ⟨?_, rfl, rfl⟩
  have hcost : QUOTA_COSTS "videos.list" = 1 := by decide
  rw [hcost]
  norm_num [QuotaTracker.remaining, QuotaTracker.maybeReset,
    QuotaTracker.effective_limit, pyTruncInt]

/-- A gated call only starts its HTTP request when `can_afford` held. -/
theorem gatedCall_http (cost : ℤ) (t : QuotaTracker) (todayPT : ℤ)
    (httpOk : Bool) :
    (gatedCall cost t todayPT httpOk).httpRequested = true →
    (t.can_afford todayPT cost).2 = true := by
  intro hreq
  cases hok : (t.can_afford todayPT cost).2 with
  | true => rfl
  | false => simp [gatedCall, hok] at hreq

/-- C2 (amended): whenever `remaining < cost` a gated client call raises
`QuotaExceededError`, starts no HTTP request, and leaves the ledger at its
post-daily-reset value; an HTTP request only ever starts when
`can_afford(cost)` held; `search_videos` is exactly the gated call, and the
batched operations are the gated call once their input-size guards pass;
an empty id list returns early — no exception, no HTTP request, the tracker
completely untouched — and more than 50 ids raise `ValueError` — again no
HTTP request and the tracker completely untouched. -/
theorem C2_quota_gate :
    ∀ (t : QuotaTracker) (todayPT cost : ℤ) (httpOk : Bool) (n : ℕ),
      ((t.remaining todayPT).2 < cost →
        gatedCall cost t todayPT httpOk =
          ⟨some .quotaExceeded, t.maybeReset todayPT, false⟩) ∧
      ((gatedCall cost t todayPT httpOk).httpRequested = true →
        (t.can_afford todayPT cost).2 = true) ∧
      (search_videos_call t todayPT httpOk =
        gatedCall (QUOTA_COSTS "search.list") t todayPT httpOk) ∧
      (1 ≤ n → n ≤ 50 →
        get_video_stats_call n t todayPT httpOk =
          gatedCall (QUOTA_COSTS "videos.list") t todayPT httpOk ∧
        get_channel_info_call n t todayPT httpOk =
          gatedCall (QUOTA_COSTS "channels.list") t todayPT httpOk) ∧
      (get_video_stats_call 0 t todayPT httpOk = ⟨none, t, false⟩) ∧
      (get_channel_info_call 0 t todayPT httpOk = ⟨none, t, false⟩) ∧
      (50 < n →
        get_video_stats_call n t todayPT httpOk =
          ⟨some .valueError, t, false⟩ ∧
        get_channel_info_call n t todayPT httpOk =
          ⟨some .valueError, t, false⟩) ∧
      ((get_video_stats_call n t todayPT httpOk).httpRequested = true →
        (t.can_afford todayPT (QUOTA_COSTS "videos.list")).2 = true) ∧
      ((get_channel_info_call n t todayPT httpOk).httpRequested = true →
        (t.can_afford todayPT (QUOTA_COSTS "channels.list")).2 = true) := by
  intro t todayPT cost httpOk n
  refine ⟨?_, gatedCall_http cost t todayPT httpOk, rfl, ?_, rfl, rfl, ?_,
    ?_, ?_⟩
  · intro hlt
    have hok : (t.can_afford todayPT cost).2 = false := by
      have hs : (t.can_afford todayPT cost).2 =
          decide ((t.remaining todayPT).2 ≥ cost) := rfl
      rw [hs]
      simp [not_le.mpr hlt]
    have hfst : (t.can_afford todayPT cost).1 = t.maybeReset todayPT := rfl
    simp [gatedCall, hok, hfst]
  · intro h1 h50
    have hne : n ≠ 0 := by omega
    have hng : ¬ n > 50 := by omega
    exact ⟨by simp [get_video_stats_call, hne, hng],
           by simp [get_channel_info_call, hne, hng]⟩
  · intro h50
    have hne : n ≠ 0 := by omega
    exact ⟨by simp [get_video_stats_call, hne, h50],
           by simp [get_channel_info_call, hne, h50]⟩
  · intro hreq
    rcases Nat.eq_zero_or_pos n with h0 | h1
    · subst h0; simp [get_video_stats_call] at hreq
    · by_cases h50 : n > 50
      · have hne : n ≠ 0 := by omega
        simp [get_video_stats_call, hne, h50] at hreq
      · have hne : n ≠ 0 := by omega
        simp only [get_video_stats_call, if_neg hne, if_neg h50] at hreq
        exact gatedCall_http _ t todayPT httpOk hreq
  · intro hreq
    rcases Nat.eq_zero_or_pos n with h0 | h1
    · subst h0; simp [get_channel_info_call] at hreq
    · by_cases h50 : n > 50
      · have hne : n ≠ 0 := by omega
        simp [get_channel_info_call, hne, h50] at hreq
      · have hne : n ≠ 0 := by omega
        simp only [get_channel_info_call, if_neg hne, if_neg h50] at hreq
        exact gatedCall_http _ t todayPT httpOk hreq

/-- C2 witness: the insufficient-quota clause applied to a tracker with its
effective limit already used, for a search costing 100. -/
theorem C2_witness :
    gatedCall 100 (⟨10000, 1/10, 9000, some 0⟩ : QuotaTracker) 0 true =
      ⟨some .quotaExceeded, ⟨10000, 1/10, 9000, some 0⟩, false⟩ := by
  have h := (C2_quota_gate ⟨10000, 1/10, 9000, some 0⟩ 0 100 true 1).1
    (by norm_num [QuotaTracker.remaining, QuotaTracker.maybeReset,
      QuotaTracker.effective_limit, pyTruncInt])
  simpa [QuotaTracker.maybeReset] using h

/-- C4 counterexample: two gaps in the claim.  HTTP 501 is a 5xx status but
is not retried (it surfaces as a terminal `YouTubeAPIError` on the first
attempt), and a 403 with a non-quota reason is a 4xx that IS retried (all 5
attempts are used). -/
theorem C4_cex :
    make_request (fun _ => .response 501 "") = (1, .apiError 501) ∧
    make_request (fun _ => .response 403 "rateLimitExceeded") =
      (5, .retryable "rate limited") := by
  constructor <;> rfl

/-- Used attempts never exceed the attempt budget. -/
theorem retryFrom_le (events : ℕ → HttpEvent) :
    ∀ (rem i : ℕ), (retryFrom events i rem).1 ≤ i + rem + 1 := by
  intro rem
  induction rem with
  | zero => intro i; simp [retryFrom]
  | succ r ih =>
    intro i
    simp only [retryFrom]
    split
    · exact le_trans (ih (i + 1)) (by omega)
    · omega

/-- Runs of retryable outcomes consume attempts one at a time. -/
theorem retryFrom_all_retry (events : ℕ → HttpEvent) :
    ∀ (rem i : ℕ),
      (∀ j, j < rem → isRetryable (classify_response (events (i + j))) = true) →
      retryFrom events i rem = (i + rem + 1, classify_response (events (i + rem))) := by
  intro rem
  induction rem with
  | zero => intro i _; simp [retryFrom]
  | succ r ih =>
    intro i h
    have h0 : isRetryable (classify_response (events i)) = true := by
      have := h 0 (by omega)
      simpa using this
    simp only [retryFrom, h0, if_pos]
    have hrec := ih (i + 1) (fun j hj => by
      have := h (j + 1) (by omega)
      simpa [Nat.add_assoc, Nat.add_comm 1 j] using this)
    have harg : i + 1 + r = i + (r + 1) := by omega
    rw [hrec, harg]

/-- C4 (amended): timeouts, connection errors, HTTP 429, HTTP 500/502/503/504
and non-quota 403s are retried; a 403 whose structured reason is quota
exhaustion is a terminal `QuotaExceededError`; every other status — the
remaining 4xx AND the remaining 5xx (501, 505, ...) — is a non-retried
`YouTubeAPIError`; the loop uses at most 5 attempts, surfaces a non-retryable
outcome immediately, and a run of retryable outcomes exhausts all 5 attempts
before surfacing the last outcome. -/
theorem C4_retry_policy :
    (classify_response .timeout = .retryable "timeout") ∧
    (classify_response .connError = .retryable "connection error") ∧
    (∀ r, classify_response (.response 429 r) = .retryable "too many requests") ∧
    (∀ s r, (s = 500 ∨ s = 502 ∨ s = 503 ∨ s = 504) →
      classify_response (.response s r) = .retryable "server error") ∧
    (∀ r, classify_response (.response 403 r) = .quotaExceeded ↔
      (r = "quotaExceeded" ∨ r = "dailyLimitExceeded")) ∧
    (∀ r, r ≠ "quotaExceeded" → r ≠ "dailyLimitExceeded" →
      classify_response (.response 403 r) = .retryable "rate limited") ∧
    (∀ s r, 400 ≤ s → s < 500 → s ≠ 403 → s ≠ 429 →
      classify_response (.response s r) = .apiError s) ∧
    (∀ s r, 500 ≤ s → s ≠ 500 → s ≠ 502 → s ≠ 503 → s ≠ 504 →
      classify_response (.response s r) = .apiError s) ∧
    (∀ events, (make_request events).1 ≤ 5) ∧
    (∀ events, isRetryable (classify_response (events 0)) = false →
      make_request events = (1, classify_response (events 0))) ∧
    (∀ events, (∀ j, j < 4 → isRetryable (classify_response (events j)) = true) →
      make_request events = (5, classify_response (events 4))) := by
  refine ⟨rfl, rfl, ?_, ?_, ?_, ?_, ?_, ?_, ?_, ?_, ?_⟩
  · intro r
    simp [classify_response]
  · intro s r h
    rcases h with h | h | h | h <;> subst h <;> simp [classify_response]
  · intro r
    constructor
    · intro h
      by_cases hq : r = "quotaExceeded" ∨ r = "dailyLimitExceeded"
      · exact hq
      · simp [classify_response, hq] at h
    · intro hq
      simp [classify_response, hq]
  · intro r h1 h2
    have hq : ¬ (r = "quotaExceeded" ∨ r = "dailyLimitExceeded") := by
      simp [h1, h2]
    simp [classify_response, hq]
  · intro s r h4 h5 h403 h429
    have h200 : s ≠ 200 := by omega
    have h5xx : ¬ (s = 500 ∨ s = 502 ∨ s = 503 ∨ s = 504) := by omega
    simp [classify_response, h200, h403, h5xx, h429]
  · intro s r h5 h500 h502 h503 h504
    have h200 : s ≠ 200 := by omega
    have h403 : s ≠ 403 := by omega
    have h429 : s ≠ 429 := by omega
    have h5xx : ¬ (s = 500 ∨ s = 502 ∨ s = 503 ∨ s = 504) := by
      simp [h500, h502, h503, h504]
    simp [classify_response, h200, h403, h5xx, h429]
  · intro events
    exact le_trans (retryFrom_le events 4 0) (by omega)
  · intro events h
    simp [make_request, retryFrom, h]
  · intro events h
    have := retryFrom_all_retry events 4 0 (fun j hj => by
      have := h j hj
      simpa using this)
    simpa using this

/-- C4 witness: a constant run of timeouts exhausts all five attempts and a
first-attempt terminal outcome stops at one attempt. -/
theorem C4_witness :
    make_request (fun _ => .timeout) = (5, .retryable "timeout") ∧
    make_request (fun _ => .response 404 "") = (1, .apiError 404) :=
  ⟨(C4_retry_policy.2.2.2.2.2.2.2.2.2.2 (fun _ => .timeout)
      (fun _ _ => rfl)),
   (C4_retry_policy.2.2.2.2.2.2.2.2.2.1 (fun _ => .response 404 "")
      rfl)⟩

/-- Accepted-count over a cons of gating results. -/
theorem countAccepted_cons (ch : String) (r : GatingResult)
    (rs : List GatingResult) :
    countAccepted ch (r :: rs) =
      (if r.accepted && r.video.channel_id == ch then 1 else 0) +
        countAccepted ch rs := by
  by_cases h : (r.accepted && r.video.channel_id == ch) = true
  · simp [countAccepted, List.filter_cons, h]
    omega
  · simp [countAccepted, List.filter_cons, h]

/-- Batch invariant: the in-batch acceptances for a channel never exceed the
cap minus the seeded count (truncated at 0). -/
theorem gate_batch_invariant (maxPer : ℕ) (now : ℚ) (ch : String) :
    ∀ (cs : List Candidate) (st : GateState),
      countAccepted ch (gate_batch maxPer now st cs).1 ≤
        maxPer - st.channel_counts ch := by
  intro cs
  induction cs with
  | nil =>
    intro st
    simp [gate_batch, countAccepted]
  | cons c cs ih =>
    intro st
    simp only [gate_batch]
    rw [countAccepted_cons]
    cases hdup : check_duplicate c.video_id st.seen_video_ids with
    | false =>
      have h := ih st
      simp [gate, hdup]
      simpa using h
    | true =>
      cases hage : (check_age_eligibility c.published_at now).isEmpty with
      | true =>
        have h := ih st
        simp [gate, hdup, hage]
        simpa using h
      | false =>
        cases hcap : check_channel_cap c.channel_id st.channel_counts maxPer with
        | false =>
          have h := ih st
          simp [gate, hdup, hage, hcap]
          simpa using h
        | true =>
          have hlt : st.channel_counts c.channel_id < maxPer :=
            of_decide_eq_true hcap
          have hrec := ih ⟨c.video_id :: st.seen_video_ids,
            fun x => if x = c.channel_id then st.channel_counts x + 1
              else st.channel_counts x⟩
          simp only [gate, hdup, hage, hcap] at hrec ⊢
          by_cases hch : c.channel_id = ch
          · subst hch
            simp at hrec ⊢
            omega
          · have hbeq : (c.channel_id == ch) = false := by
              simp [hch]
            have hne : ¬ (ch = c.channel_id) := fun h => hch h.symm
            simp only [if_neg hne] at hrec
            simp [hbeq] at hrec ⊢
            simpa using hrec

/-- C5: for every batch, every channel, every preloaded count map and every
cap, the number of candidates accepted for that channel during the batch is
at most `max_per_channel`. -/
theorem C5_channel_cap :
    ∀ (maxPer : ℕ) (now : ℚ) (st : GateState) (cs : List Candidate)
      (ch : String),
      countAccepted ch (gate_batch maxPer now st cs).1 ≤ maxPer := by
  intro maxPer now st cs ch
  have h := gate_batch_invariant maxPer now ch cs st
  omega

/-- C9 counterexample: `"PT5X"` is neither empty nor well-formed, yet the
parser returns 0 seconds rather than null; and `"PTxH"` raises `ValueError`
rather than returning null. -/
theorem C9_cex :
    parse_duration "PT5X" = .ok (some 0) ∧
    parse_duration "PTxH" = .error () :=
  ⟨rfl, rfl⟩

/-- An input that is non-empty and starts with "PT" never parses to null:
every leaf of the component extraction is a `ValueError` or an integer. -/
theorem parse_duration_pt_ne_none (s : String)
    (hemp : s.data.isEmpty = false)
    (hpre : (['P', 'T'].isPrefixOf s.data) = true) :
    parse_duration s ≠ .ok none := by
  have hif : ¬ (s.data.isEmpty = true ∨
      ¬ ((['P', 'T'].isPrefixOf s.data) = true)) := by
    simp [hemp, hpre]
  simp only [parse_duration, if_neg hif]
  split
  · simp
  · split
    · simp
    · split
      · simp
      · split
        · simp
        · simp

/-- C9 (amended): the parser returns 5400 for "PT1H30M", 330 for "PT5M30S"
and 30 for "PT30S"; it returns null exactly when the input is empty or does
not start with "PT".  A string starting with "PT" therefore never yields
null: the call either raises `ValueError` or returns an integer (bare "PT"
returns 0). -/
theorem C9_parse_duration :
    parse_duration "PT1H30M" = .ok (some 5400) ∧
    parse_duration "PT5M30S" = .ok (some 330) ∧
    parse_duration "PT30S" = .ok (some 30) ∧
    (∀ s : String, parse_duration s = .ok none ↔
      (s.data.isEmpty = true ∨ (['P', 'T'].isPrefixOf s.data) = false)) ∧
    parse_duration "PT" = .ok (some 0) := by
  refine ⟨rfl, rfl, rfl, ?_, rfl⟩
  intro s
  constructor
  · intro heq
    by_cases hemp : s.data.isEmpty = true
    · exact Or.inl hemp
    · by_cases hpre : (['P', 'T'].isPrefixOf s.data) = true
      · exact absurd heq
          (parse_duration_pt_ne_none s (Bool.eq_false_iff.mpr hemp) hpre)
      · exact Or.inr (Bool.eq_false_iff.mpr hpre)
  · intro h
    rcases h with h | h
    · simp [parse_duration, h]
    · simp [parse_duration, h]

/-- C9 witness: the null-iff clause applied at the non-"PT" input "xyz" and
at the empty string. -/
theorem C9_witness :
    parse_duration "xyz" = .ok none ∧ parse_duration "" = .ok none :=
  ⟨(C9_parse_duration.2.2.2.1 "xyz").mpr (Or.inr rfl),
   (C9_parse_duration.2.2.2.1 "").mpr (Or.inl rfl)⟩

/-- Unfolding of `lexLe` on two cons cells. -/
theorem lexLe_cons_iff (a b : Char) (as bs : List Char) :
    lexLe (a :: as) (b :: bs) = true ↔
      a.toNat < b.toNat ∨ (a.toNat = b.toNat ∧ lexLe as bs = true) := by
  simp only [lexLe]
  by_cases h1 : a.toNat < b.toNat
  · simp only [if_pos h1]
    constructor
    · intro _; exact Or.inl h1
    · intro _; trivial
  · by_cases h2 : b.toNat < a.toNat
    · simp only [if_neg h1, if_pos h2]
      constructor
      · intro h; exact Bool.noConfusion h
      · rintro (h | ⟨he, _⟩) <;> omega
    · have he : a.toNat = b.toNat := by omega
      simp only [if_neg h1, if_neg h2]
      constructor
      · intro h; exact Or.inr ⟨he, h⟩
      · rintro (h | ⟨_, h⟩)
        · omega
        · exact h

/-- `lexLe` is total. -/
theorem lexLe_total : ∀ as bs : List Char, lexLe as bs = true ∨ lexLe bs as = true
  | [], _ => Or.inl rfl
  | _ :: _, [] => Or.inr rfl
  | a :: as, b :: bs => by
    rcases Nat.lt_trichotomy a.toNat b.toNat with h | h | h
    · exact Or.inl ((lexLe_cons_iff a b as bs).mpr (Or.inl h))
    · rcases lexLe_total as bs with ih | ih
      · exact Or.inl ((lexLe_cons_iff a b as bs).mpr (Or.inr ⟨h, ih⟩))
      · exact Or.inr ((lexLe_cons_iff b a bs as).mpr (Or.inr ⟨h.symm, ih⟩))
    · exact Or.inr ((lexLe_cons_iff b a bs as).mpr (Or.inl h))

/-- `lexLe` is transitive. -/
theorem lexLe_trans : ∀ as bs cs : List Char,
    lexLe as bs = true → lexLe bs cs = true → lexLe as cs = true
  | [], _, _ => fun _ _ => rfl
  | _ :: _, [], _ => fun h _ => Bool.noConfusion h
  | _ :: _, _ :: _, [] => fun _ h => Bool.noConfusion h
  | a :: as, b :: bs, c :: cs => by
    intro h1 h2
    rcases (lexLe_cons_iff a b as bs).mp h1 with hl | ⟨he, ht⟩ <;>
      rcases (lexLe_cons_iff b c bs cs).mp h2 with hl2 | ⟨he2, ht2⟩
    · exact (lexLe_cons_iff a c as cs).mpr (Or.inl (by omega))
    · exact (lexLe_cons_iff a c as cs).mpr (Or.inl (by omega))
    · exact (lexLe_cons_iff a c as cs).mpr (Or.inl (by omega))
    · exact (lexLe_cons_iff a c as cs).mpr
        (Or.inr ⟨by omega, lexLe_trans as bs cs ht ht2⟩)

/-- `lexLe` is antisymmetric. -/
theorem lexLe_antisymm : ∀ as bs : List Char,
    lexLe as bs = true → lexLe bs as = true → as = bs
  | [], [] => fun _ _ => rfl
  | [], _ :: _ => fun _ h => Bool.noConfusion h
  | _ :: _, [] => fun h _ => Bool.noConfusion h
  | a :: as, b :: bs => by
    intro h1 h2
    rcases (lexLe_cons_iff a b as bs).mp h1 with hl | ⟨he, ht⟩ <;>
      rcases (lexLe_cons_iff b a bs as).mp h2 with hl2 | ⟨he2, ht2⟩
    · omega
    · omega
    · omega
    · have hc : a = b := Char.ext (UInt32.ext he)
      have ht' := lexLe_antisymm as bs ht ht2
      rw [hc, ht']

instance : IsTotal String pyLe :=
  ⟨fun a b => lexLe_total a.data b.data⟩

instance : IsTrans String pyLe :=
  ⟨fun a b c => lexLe_trans a.data b.data c.data⟩

instance : IsAntisymm String pyLe :=
  ⟨fun a b h1 h2 => by
    cases a with
    | mk da =>
      cases b with
      | mk db =>
        have : da = db := lexLe_antisymm da db h1 h2
        rw [this]⟩

/-- Sorting with `pyLe` only depends on the multiset of elements. -/
theorem insertionSort_eq_of_perm (l1 l2 : List String) (h : l1.Perm l2) :
    List.insertionSort pyLe l1 = List.insertionSort pyLe l2 :=
  List.eq_of_perm_of_sorted
    ((List.perm_insertionSort pyLe l1).trans
      (h.trans (List.perm_insertionSort pyLe l2).symm))
    (List.sorted_insertionSort pyLe l1) (List.sorted_insertionSort pyLe l2)

/-- C1 counterexample: `["v1"]` and `["v1","v1"]` have the same underlying
set of elements, but their cluster IDs differ (the joined sorted string
keeps duplicates), so the ID is not a function of `(window, set(video_ids))`. -/
theorem C1_cex :
    (∀ x : String,
      x ∈ (["v1"] : List String) ↔ x ∈ (["v1", "v1"] : List String)) ∧
    stable_cluster_id "7d" ["v1"] ≠ stable_cluster_id "7d" ["v1", "v1"] := by
  constructor
  · intro x; simp
  · decide

/-- C1 (amended): `stable_cluster_id` is a pure function of
`(window, multiset(video_ids))`: permutations of the id list give equal
UUIDs; in particular `["v1","v2","v3"]` and `["v3","v1","v2"]` agree under
window "7d", and the same ids under window "30d" give a different UUID. -/
theorem C1_stable_cluster_id :
    (∀ (window : String) (ids1 ids2 : List String), ids1.Perm ids2 →
      stable_cluster_id window ids1 = stable_cluster_id window ids2) ∧
    stable_cluster_id "7d" ["v1", "v2", "v3"] =
      stable_cluster_id "7d" ["v3", "v1", "v2"] ∧
    stable_cluster_id "7d" ["v1", "v2", "v3"] ≠
      stable_cluster_id "30d" ["v1", "v2", "v3"] := by
  refine ⟨?_, by rfl, by decide⟩
  intro window ids1 ids2 h
  simp only [stable_cluster_id]
  rw [insertionSort_eq_of_perm ids1 ids2 h]

/-- C1 witness: permutation invariance applied to a concrete swap. -/
theorem C1_witness :
    stable_cluster_id "7d" ["b", "a"] = stable_cluster_id "7d" ["a", "b"] :=
  C1_stable_cluster_id.1 "7d" ["b", "a"] ["a", "b"] (List.Perm.swap "a" "b" [])

end YtGrowth
